import Mathlib

/-!
Shallow embedding of the PortSync repository (src/generate_port_data.py and
src/app.py) and proofs about its derived-metrics pipeline and
recommendation engine.

Python/NumPy floats are modelled as rationals (ℚ); `np.round` and Python's
format rounding are round-half-to-even, embedded as `roundHalfEven`.
NumPy's seeded global RNG is a pure stream of values once the seed is
fixed; we model the per-record draws as an explicit list `RawDraws`
(same seed ⇔ same list).  The wall clock read by `datetime.now()` is an
explicit integer argument `now` measured in days.
-/

namespace PortSync

/-- Round-half-to-even on rationals, the rounding used by `np.round`
and Python's fixed-point formatting. -/
def roundHalfEven (x : ℚ) : ℤ :=
  if x - (⌊x⌋ : ℚ) < 1/2 then ⌊x⌋
  else if 1/2 < x - (⌊x⌋ : ℚ) then ⌊x⌋ + 1
  else if ⌊x⌋ % 2 = 0 then ⌊x⌋ else ⌊x⌋ + 1

/-- `np.round(x, n)`: round to `n` decimal places, half to even. -/
def roundTo (n : ℕ) (x : ℚ) : ℚ :=
  (roundHalfEven (x * 10 ^ n) : ℚ) / 10 ^ n

/-- The raw random draws consumed for one record by `generate_data`
(src/generate_port_data.py): the arrival-date offset from
`np.random.randint(0, 90)`, the queue size from `np.random.choice([0..5])`,
the waiting-days draw from `np.random.uniform(1.0, 4.0)` (consumed only when
the queue is non-empty), the speed draw from `np.random.normal(14.0, 1.0)`,
and the fuel draw from `np.random.randint(500, 801)`. -/
structure RawDraws where
  dateOffset : ℕ
  queueDraw : ℕ
  waitDraw : ℚ
  speedDraw : ℚ
  fuelDraw : ℕ
deriving DecidableEq

/-- The ranges the NumPy samplers guarantee for each draw
(`randint(0,90)`, `choice([0..5])`, `uniform(1.0,4.0)`, `randint(500,801)`;
the normal speed draw is unbounded). -/
def RawDraws.valid (d : RawDraws) : Prop :=
  d.dateOffset < 90 ∧ d.queueDraw ≤ 5 ∧
    1 ≤ d.waitDraw ∧ d.waitDraw < 4 ∧
    500 ≤ d.fuelDraw ∧ d.fuelDraw ≤ 800

instance (d : RawDraws) : Decidable d.valid := by
  unfold RawDraws.valid; infer_instance

/-- One row of the generated `port_traffic.csv` dataset: the raw sampled
fields together with the derived business-logic columns computed in
`generate_data`. -/
structure VoyageRecord where
  vessel_id : String
  arrival_date : ℤ
  queue_size : ℕ
  waiting_days : ℚ
  actual_speed_knots : ℚ
  fuel_consumed_tons : ℕ
  optimal_speed_knots : ℚ
  demurrage_cost : ℚ
  total_fuel_cost : ℚ
  potential_fuel_savings : ℚ
deriving DecidableEq

/-- Zero-padded three-digit index, as in the format string `TANKER-{i:03d}`. -/
def padThree (i : ℕ) : String :=
  if i < 10 then "00" ++ toString i
  else if i < 100 then "0" ++ toString i
  else toString i

/-- `f"TANKER-{i:03d}"` from src/generate_port_data.py line 13. -/
def vesselId (i : ℕ) : String := "TANKER-" ++ padThree i

/-- Build the record at index `i` (0-based) with arrival date `arrival`
from its raw draws, applying the business logic of
src/generate_port_data.py lines 27-86:
waiting days are 0 when the queue is empty and otherwise the uniform draw
rounded to 2 decimals; speeds are rounded to 1 decimal; demurrage is
`Waiting_Days * 30000`; fuel cost is `Fuel_Consumed_Tons * 600`; optimal
speed is `round(Actual_Speed_Knots * 0.75, 1)` for queued rows and the
actual speed otherwise; potential savings is
`round(Total_Fuel_Cost * 0.15 * Waiting_Days, 2)` for queued rows and 0
otherwise. -/
def mkRecord (i : ℕ) (arrival : ℤ) (d : RawDraws) : VoyageRecord :=
  let queue := d.queueDraw
  let waiting : ℚ := if queue = 0 then 0 else roundTo 2 d.waitDraw
  let speed : ℚ := roundTo 1 d.speedDraw
  let fuel := d.fuelDraw
  let fuelCost : ℚ := (fuel : ℚ) * 600
  { vessel_id := vesselId (i + 1)
    arrival_date := arrival
    queue_size := queue
    waiting_days := waiting
    actual_speed_knots := speed
    fuel_consumed_tons := fuel
    optimal_speed_knots := if 0 < queue then roundTo 1 (speed * (75/100)) else speed
    demurrage_cost := waiting * 30000
    total_fuel_cost := fuelCost
    potential_fuel_savings :=
      if 0 < queue then roundTo 2 (fuelCost * (15/100) * waiting) else 0 }

/-- `generate_data` from src/generate_port_data.py, with the seeded RNG
abstracted as the per-record draw list `draws` (the seed determines the
list) and `datetime.now()` abstracted as the day count `now`.  Arrival
dates are `start_date + offset` with `start_date = now - 90`, sorted
ascending before the records are assembled (line 19), while every other
column keeps the draw order.  The repository calls this with 100 draws
(`n_vessels = 100`) and seed 42. -/
def generateData (draws : List RawDraws) (now : ℤ) : List VoyageRecord :=
  let sortedOffsets := (draws.map RawDraws.dateOffset).insertionSort (· ≤ ·)
  List.zipWith (fun i p => mkRecord i (now - 90 + (p.1 : ℤ)) p.2)
    (List.range draws.length) (sortedOffsets.zip draws)

/-- `n_vessels = 100` in src/generate_port_data.py line 10. -/
def nVessels : ℕ := 100

/-- Number of ships that waited, `df[df['Waiting_Days'] > 0].shape[0]`
from src/app.py line 38. -/
def shipsWaited (df : List VoyageRecord) : ℕ :=
  (df.filter fun r => decide (0 < r.waiting_days)).length

/-- Fleet efficiency score,
`100 - (ships_waited / total_ships * 100)` from src/app.py line 40. -/
def efficiencyScore (df : List VoyageRecord) : ℚ :=
  100 - ((shipsWaited df : ℚ) / (df.length : ℚ) * 100)

/-- The two decision labels of the sidebar recommendation engine. -/
inductive Decision where
  | SLOW_STEAMING
  | MAINTAIN_SPEED
deriving DecidableEq

/-- The recommendation engine's output: decision label, speed factor, and
estimated fuel savings (0 when no savings estimate is shown). -/
structure RecommendationResult where
  decision : Decision
  speed_factor : ℚ
  estimated_savings : ℚ
deriving DecidableEq

/-- The sidebar recommendation logic of src/app.py lines 111-139: a queue
strictly greater than 1 yields SLOW_STEAMING with speed factor 0.8 and an
estimated savings of
`(distance_nm / (14.0 * 24)) * 30 * 600 * 0.15`; otherwise MAINTAIN_SPEED
with speed factor 1.0 and no savings estimate (0). -/
def recommend (distance_nm : ℚ) (current_queue : ℤ) : RecommendationResult :=
  if 1 < current_queue then
    let avg_speed : ℚ := 14
    let days_at_sea := distance_nm / (avg_speed * 24)
    let est_fuel_cost := days_at_sea * 30 * 600
    ⟨.SLOW_STEAMING, 8/10, est_fuel_cost * (15/100)⟩
  else
    ⟨.MAINTAIN_SPEED, 1, 0⟩

/-- The single input-validation failure of the system. -/
inductive InputError where
  | InputValidationError
deriving DecidableEq

/-- The input constraints enforced by the two sidebar widgets of
src/app.py lines 107-108: `number_input("Distance to Port (nm)",
min_value=100, ...)` and `number_input("Current Queue (ships)",
min_value=0, ...)`.  A query outside the ranges is rejected before the
recommendation logic ever runs. -/
def validateQuery (distance_nm : ℚ) (current_queue : ℤ) :
    Except InputError (ℚ × ℤ) :=
  if 100 ≤ distance_nm ∧ 0 ≤ current_queue then
    .ok (distance_nm, current_queue)
  else
    .error .InputValidationError

/-! ### Helper lemmas -/

lemma roundHalfEven_bounds (x : ℚ) :
    x - 1/2 ≤ (roundHalfEven x : ℚ) ∧ (roundHalfEven x : ℚ) ≤ x + 1/2 := by
  have h1 : ((⌊x⌋ : ℤ) : ℚ) ≤ x := Int.floor_le x
  have h2 : x < ((⌊x⌋ : ℤ) : ℚ) + 1 := Int.lt_floor_add_one x
  unfold roundHalfEven
  split_ifs with ha hb hc <;> constructor <;> push_cast <;> linarith

lemma sub_le_roundTo_two (x : ℚ) : x - 1/200 ≤ roundTo 2 x := by
  have h := (roundHalfEven_bounds (x * 10 ^ 2)).1
  unfold roundTo
  rw [le_div_iff₀ (by norm_num : (0:ℚ) < 10 ^ 2)]
  nlinarith

lemma roundTo_two_le_add (x : ℚ) : roundTo 2 x ≤ x + 1/200 := by
  have h := (roundHalfEven_bounds (x * 10 ^ 2)).2
  unfold roundTo
  rw [div_le_iff₀ (by norm_num : (0:ℚ) < 10 ^ 2)]
  nlinarith

lemma exists_of_mem_zipWith {α β γ : Type} {f : α → β → γ} {as : List α}
    {bs : List β} {c : γ} (h : c ∈ List.zipWith f as bs) :
    ∃ a ∈ as, ∃ b ∈ bs, c = f a b := by
  induction as generalizing bs with
  | nil => simp [List.zipWith] at h
  | cons a as ih =>
    cases bs with
    | nil => simp [List.zipWith] at h
    | cons b bs =>
      simp only [List.zipWith, List.mem_cons] at h
      rcases h with h | h
      · exact ⟨a, by simp, b, by simp, h⟩
      · obtain ⟨a', ha', b', hb', hc⟩ := ih h
        exact ⟨a', by simp [ha'], b', by simp [hb'], hc⟩

/-- Every record of a generated batch is `mkRecord i a d` for some index,
arrival date, and raw draws taken from the draw list. -/
lemma mem_generateData {draws : List RawDraws} {now : ℤ} {r : VoyageRecord}
    (h : r ∈ generateData draws now) :
    ∃ i a d, d ∈ draws ∧ r = mkRecord i a d := by
  simp only [generateData] at h
  obtain ⟨i, _, p, hp, hc⟩ := exists_of_mem_zipWith h
  obtain ⟨o, d⟩ := p
  exact ⟨i, now - 90 + (o : ℤ), d, (List.of_mem_zip hp).2, hc⟩

lemma mkRecord_demurrage (i : ℕ) (a : ℤ) (d : RawDraws) :
    (mkRecord i a d).demurrage_cost = (mkRecord i a d).waiting_days * 30000 := rfl

lemma mkRecord_fuel_cost (i : ℕ) (a : ℤ) (d : RawDraws) :
    (mkRecord i a d).total_fuel_cost = ((mkRecord i a d).fuel_consumed_tons : ℚ) * 600 := rfl

/-! ### Concrete witness inputs -/

/-- A valid draw with a non-empty queue: offset 10, queue 1, waiting draw
2.0, speed draw 14.0, fuel 600 tons. -/
def wDrawQ : RawDraws := ⟨10, 1, 2, 14, 600⟩

/-- A valid draw with an empty queue: offset 5, queue 0, speed draw 14.0,
fuel 500 tons. -/
def wDrawZ : RawDraws := ⟨5, 0, 2, 14, 500⟩

/-! ### Claims -/

/-- Claim C1: for every voyage record of a generated batch,
`demurrage_cost = waiting_days * 30000` and
`total_fuel_cost = fuel_consumed_tons * 600`; in particular a record with
`waiting_days = 2.0` and `fuel_consumed_tons = 600` has
`demurrage_cost = 60000` and `total_fuel_cost = 360000`. -/
theorem C1_cost_formulas (draws : List RawDraws) (now : ℤ) (r : VoyageRecord)
    (hr : r ∈ generateData draws now) :
    r.demurrage_cost = r.waiting_days * 30000 ∧
    r.total_fuel_cost = (r.fuel_consumed_tons : ℚ) * 600 ∧
    (r.waiting_days = 2 → r.fuel_consumed_tons = 600 →
      r.demurrage_cost = 60000 ∧ r.total_fuel_cost = 360000) := by
  obtain ⟨i, a, d, _, rfl⟩ := mem_generateData hr
  refine ⟨rfl, rfl, fun hw hf => ⟨?_, ?_⟩⟩
  · rw [mkRecord_demurrage, hw]; norm_num
  · rw [mkRecord_fuel_cost, hf]; norm_num

/-- Witness for C1 on the concrete one-record batch generated from
`wDrawQ` at `now = 90`. -/
theorem C1_cost_formulas_witness :
    (mkRecord 0 10 wDrawQ).demurrage_cost = 60000 ∧
    (mkRecord 0 10 wDrawQ).total_fuel_cost = 360000 := by
  have h := C1_cost_formulas [wDrawQ] 90 (mkRecord 0 10 wDrawQ)
    (by simp [generateData, wDrawQ, List.insertionSort, List.range_succ])
  exact h.2.2 (by norm_num [mkRecord, wDrawQ, roundTo, roundHalfEven]) rfl

/-- Claim C2: for every voyage record of a generated batch,
`potential_fuel_savings = round(total_fuel_cost * 0.15 * waiting_days, 2)`
when `queue_size > 0`, and exactly 0 when `queue_size = 0`. -/
theorem C2_savings_formula (draws : List RawDraws) (now : ℤ) (r : VoyageRecord)
    (hr : r ∈ generateData draws now) :
    (0 < r.queue_size →
      r.potential_fuel_savings =
        roundTo 2 (r.total_fuel_cost * (15/100) * r.waiting_days)) ∧
    (r.queue_size = 0 → r.potential_fuel_savings = 0) := by
  obtain ⟨i, a, d, _, rfl⟩ := mem_generateData hr
  constructor
  · intro hq
    have hq' : d.queueDraw ≠ 0 := by
      simpa [mkRecord, Nat.pos_iff_ne_zero] using hq
    simp [mkRecord, hq']
  · intro hq
    have hq' : d.queueDraw = 0 := hq
    simp [mkRecord, hq']

/-- Witness for C2 on concrete one-record batches: a queued record from
`wDrawQ` and a queue-free record from `wDrawZ`. -/
theorem C2_savings_formula_witness :
    (mkRecord 0 10 wDrawQ).potential_fuel_savings =
      roundTo 2 ((mkRecord 0 10 wDrawQ).total_fuel_cost * (15/100) *
        (mkRecord 0 10 wDrawQ).waiting_days) ∧
    (mkRecord 0 5 wDrawZ).potential_fuel_savings = 0 := by
  refine ⟨(C2_savings_formula [wDrawQ] 90 (mkRecord 0 10 wDrawQ)
    (by simp [generateData, wDrawQ, List.insertionSort, List.range_succ])).1
      (by norm_num [mkRecord, wDrawQ]),
    (C2_savings_formula [wDrawZ] 90 (mkRecord 0 5 wDrawZ)
    (by simp [generateData, wDrawZ, List.insertionSort, List.range_succ])).2
      rfl⟩

/-- Claim C8: for every voyage record of a generated batch,
`optimal_speed_knots = round(actual_speed_knots * 0.75, 1)` when
`queue_size > 0` and `optimal_speed_knots = actual_speed_knots` exactly
when `queue_size = 0`. -/
theorem C8_optimal_speed (draws : List RawDraws) (now : ℤ) (r : VoyageRecord)
    (hr : r ∈ generateData draws now) :
    (0 < r.queue_size →
      r.optimal_speed_knots = roundTo 1 (r.actual_speed_knots * (75/100))) ∧
    (r.queue_size = 0 → r.optimal_speed_knots = r.actual_speed_knots) := by
  obtain ⟨i, a, d, _, rfl⟩ := mem_generateData hr
  constructor
  · intro hq
    have hq' : 0 < d.queueDraw := hq
    simp [mkRecord, hq']
  · intro hq
    have hq' : d.queueDraw = 0 := hq
    simp [mkRecord, hq']

/-- Witness for C8 on concrete one-record batches from `wDrawQ` and
`wDrawZ`. -/
theorem C8_optimal_speed_witness :
    (mkRecord 0 10 wDrawQ).optimal_speed_knots =
      roundTo 1 ((mkRecord 0 10 wDrawQ).actual_speed_knots * (75/100)) ∧
    (mkRecord 0 5 wDrawZ).optimal_speed_knots =
      (mkRecord 0 5 wDrawZ).actual_speed_knots := by
  refine ⟨(C8_optimal_speed [wDrawQ] 90 (mkRecord 0 10 wDrawQ)
    (by simp [generateData, wDrawQ, List.insertionSort, List.range_succ])).1
      (by norm_num [mkRecord, wDrawQ]),
    (C8_optimal_speed [wDrawZ] 90 (mkRecord 0 5 wDrawZ)
    (by simp [generateData, wDrawZ, List.insertionSort, List.range_succ])).2
      rfl⟩

/-- Claim C3: for a query with positive distance and non-negative queue,
a queue strictly above 1 yields SLOW_STEAMING with speed factor 0.8 and
estimated savings `(distance_nm / (14 * 24)) * 30 * 600 * 0.15`; a queue of
at most 1 yields MAINTAIN_SPEED with speed factor 1.0 and savings 0.  In
particular `recommend 1000 2` has savings that round to 8036 and
`recommend 1000 1` is MAINTAIN_SPEED with savings 0. -/
theorem C3_recommendation (d : ℚ) (q : ℤ) (hd : 0 < d) (hq : 0 ≤ q) :
    (1 < q → recommend d q =
      ⟨.SLOW_STEAMING, 8/10, d / (14 * 24) * 30 * 600 * (15/100)⟩) ∧
    (q ≤ 1 → recommend d q = ⟨.MAINTAIN_SPEED, 1, 0⟩) ∧
    roundHalfEven (recommend 1000 2).estimated_savings = 8036 ∧
    recommend 1000 1 = ⟨.MAINTAIN_SPEED, 1, 0⟩ := by
  refine ⟨fun h => by simp [recommend, h], fun h => by simp [recommend, not_lt.mpr h], ?_,
    by norm_num [recommend]⟩
  have h2 : (recommend 1000 2).estimated_savings = 56250 / 7 := by
    norm_num [recommend]
  rw [h2]
  norm_num [roundHalfEven]

/-- Witness for C3 at distance 1000 with queues 2 and 1. -/
theorem C3_recommendation_witness :
    recommend 1000 2 =
      ⟨.SLOW_STEAMING, 8/10, 1000 / (14 * 24) * 30 * 600 * (15/100)⟩ ∧
    recommend 1000 1 = ⟨.MAINTAIN_SPEED, 1, 0⟩ := by
  have h := C3_recommendation 1000 2 (by norm_num) (by norm_num)
  exact ⟨h.1 (by norm_num), h.2.2.2⟩

/-- Claim C6: a query with non-positive distance is rejected with an
InputValidationError for every queue value, and every query with a
non-negative queue and an accepted distance passes validation (the queue
has no upper-bound check). -/
theorem C6_input_validation (d : ℚ) (q : ℤ) :
    (d ≤ 0 → validateQuery d q = .error .InputValidationError) ∧
    (0 ≤ q → 100 ≤ d → validateQuery d q = .ok (d, q)) := by
  constructor
  · intro hd
    have hno : ¬(100 ≤ d ∧ 0 ≤ q) := by
      rintro ⟨h100, -⟩
      linarith
    simp [validateQuery, hno]
  · intro hq hd
    simp [validateQuery, hd, hq]

/-- Witness for C6: distance 0 with queue 3 is rejected; distance 1000
with queue 3 is accepted. -/
theorem C6_input_validation_witness :
    validateQuery 0 3 = .error .InputValidationError ∧
    validateQuery 1000 3 = .ok (1000, 3) :=
  ⟨(C6_input_validation 0 3).1 (by norm_num),
   (C6_input_validation 1000 3).2 (by norm_num) (by norm_num)⟩

/-- Claim C10: the recommendation depends on the queue only through the
threshold — any two queues strictly above 1 give identical results at the
same distance — and within the SLOW_STEAMING branch the estimated savings
is strictly increasing in the distance. -/
theorem C10_threshold_and_monotone (dist d1 d2 : ℚ) (q q1 q2 : ℤ) :
    (1 < q1 → 1 < q2 → recommend dist q1 = recommend dist q2) ∧
    (1 < q → d1 < d2 →
      (recommend d1 q).estimated_savings < (recommend d2 q).estimated_savings) := by
  constructor
  · intro h1 h2
    simp [recommend, h1, h2]
  · intro hq hlt
    simp only [recommend, if_pos hq]
    show d1 / (14 * 24) * 30 * 600 * (15/100) < d2 / (14 * 24) * 30 * 600 * (15/100)
    linarith

/-- Witness for C10: queues 2 and 7 agree at distance 500, and savings at
distance 500 is below savings at distance 1000 for queue 2. -/
theorem C10_threshold_and_monotone_witness :
    recommend 500 2 = recommend 500 7 ∧
    (recommend 500 2).estimated_savings < (recommend 1000 2).estimated_savings :=
  ⟨(C10_threshold_and_monotone 500 500 1000 2 2 7).1 (by norm_num) (by norm_num),
   (C10_threshold_and_monotone 500 500 1000 2 2 7).2 (by norm_num) (by norm_num)⟩

/-- The non-date fields of a record: everything except `arrival_date`. -/
def VoyageRecord.coreFields (r : VoyageRecord) :
    String × ℕ × ℚ × ℚ × ℕ × ℚ × ℚ × ℚ × ℚ :=
  (r.vessel_id, r.queue_size, r.waiting_days, r.actual_speed_knots,
   r.fuel_consumed_tons, r.optimal_speed_knots, r.demurrage_cost,
   r.total_fuel_cost, r.potential_fuel_savings)

/-- Counterexample to Claim C4 as stated: the same seed (hence the same
draw list) run at two different wall-clock days produces different
batches, because `generate_data` derives arrival dates from
`datetime.now()` (src/generate_port_data.py lines 16-18).  The batches
from `now = 0` and `now = 1` differ in `arrival_date`. -/
theorem C4_counterexample : generateData [wDrawQ] 0 ≠ generateData [wDrawQ] 1 := by
  simp [generateData, wDrawQ, List.insertionSort, List.range_succ, mkRecord]

/-- Claim C4 (amended): generation is deterministic in the seed and the
call time — with the same draw list every field except `arrival_date` is
identical across calls regardless of the clock, and calls at the same
clock value produce fully identical batches. -/
theorem C4_seed_determinism (draws : List RawDraws) (now₁ now₂ : ℤ) :
    (generateData draws now₁).map VoyageRecord.coreFields =
      (generateData draws now₂).map VoyageRecord.coreFields ∧
    (now₁ = now₂ → generateData draws now₁ = generateData draws now₂) := by
  constructor
  · simp only [generateData, List.map_zipWith]
    congr 1
  · rintro rfl
    rfl

/-- Witness for C4 (amended): the concrete one-draw batches at clock
values 0 and 1 share all non-date fields, and at equal clock values the
batches coincide. -/
theorem C4_seed_determinism_witness :
    (generateData [wDrawQ] 0).map VoyageRecord.coreFields =
      (generateData [wDrawQ] 1).map VoyageRecord.coreFields ∧
    generateData [wDrawQ] 5 = generateData [wDrawQ] 5 :=
  ⟨(C4_seed_determinism [wDrawQ] 0 1).1, (C4_seed_determinism [wDrawQ] 5 5).2 rfl⟩

/-- Counterexample to Claim C7 as stated: `generate_data` performs no
count validation at all — its return type has no failure case — and at
count 0 (the empty draw list) it returns an empty batch instead of
raising an InputValidationError. -/
theorem C7_counterexample : generateData [] 0 = [] := rfl

/-- Claim C7 (amended): `generate_data` never fails on the count; it
returns exactly one record per draw (so exactly `count` records for every
count, including an empty batch at count 0; the repository fixes the
count at `n_vessels = 100`). -/
theorem C7_no_count_validation (draws : List RawDraws) (now : ℤ) :
    (generateData draws now).length = draws.length := by
  simp [generateData, List.length_zipWith, List.length_zip,
    List.length_insertionSort]

/-- Claim C5: for every record of a batch generated from in-range draws,
`queue_size = 0` iff `waiting_days = 0` iff `potential_fuel_savings = 0`,
and the three monetary fields are non-negative. -/
theorem C5_invariants (draws : List RawDraws) (now : ℤ)
    (hv : ∀ d ∈ draws, d.valid) (r : VoyageRecord)
    (hr : r ∈ generateData draws now) :
    ((r.queue_size = 0 ↔ r.waiting_days = 0) ∧
     (r.queue_size = 0 ↔ r.potential_fuel_savings = 0)) ∧
    (0 ≤ r.demurrage_cost ∧ 0 ≤ r.total_fuel_cost ∧
      0 ≤ r.potential_fuel_savings) := by
  obtain ⟨i, a, d, hdm, rfl⟩ := mem_generateData hr
  obtain ⟨-, -, hw1, -, hf1, -⟩ := hv d hdm
  have hfc0 : (0 : ℚ) ≤ (d.fuelDraw : ℚ) * 600 := by positivity
  by_cases hq : d.queueDraw = 0
  · refine ⟨⟨?_, ?_⟩, ?_, ?_, ?_⟩ <;> simp [mkRecord, hq, hfc0]
  · have hwait : (199/200 : ℚ) ≤ roundTo 2 d.waitDraw := by
      have h := sub_le_roundTo_two d.waitDraw
      linarith
    have hfc : (300000 : ℚ) ≤ (d.fuelDraw : ℚ) * 600 := by
      have h5 : (500 : ℚ) ≤ (d.fuelDraw : ℚ) := by exact_mod_cast hf1
      linarith
    have hinner : (44775 : ℚ) ≤
        (d.fuelDraw : ℚ) * 600 * (15/100) * roundTo 2 d.waitDraw := by
      nlinarith
    have hsav : 0 <
        roundTo 2 ((d.fuelDraw : ℚ) * 600 * (15/100) * roundTo 2 d.waitDraw) := by
      have h := sub_le_roundTo_two
        ((d.fuelDraw : ℚ) * 600 * (15/100) * roundTo 2 d.waitDraw)
      linarith
    have hwd : (mkRecord i a d).waiting_days = roundTo 2 d.waitDraw := by
      simp [mkRecord, hq]
    have hsv : (mkRecord i a d).potential_fuel_savings =
        roundTo 2 ((d.fuelDraw : ℚ) * 600 * (15/100) * roundTo 2 d.waitDraw) := by
      simp [mkRecord, hq, Nat.pos_of_ne_zero hq]
    have hdc : (mkRecord i a d).demurrage_cost = roundTo 2 d.waitDraw * 30000 := by
      simp [mkRecord, hq]
    have hqs : (mkRecord i a d).queue_size = d.queueDraw := rfl
    refine ⟨⟨?_, ?_⟩, ?_, ?_, ?_⟩
    · rw [hqs, hwd]
      constructor
      · intro h
        exact absurd h hq
      · intro h
        rw [h] at hwait
        norm_num at hwait
    · rw [hqs, hsv]
      constructor
      · intro h
        exact absurd h hq
      · intro h
        rw [h] at hsav
        norm_num at hsav
    · rw [hdc]
      nlinarith
    · exact hfc0
    · rw [hsv]
      linarith

/-- Witness for C5 on the concrete one-record batch from the valid queued
draw `wDrawQ` at `now = 90`. -/
theorem C5_invariants_witness :
    (((mkRecord 0 10 wDrawQ).queue_size = 0 ↔
        (mkRecord 0 10 wDrawQ).waiting_days = 0) ∧
     ((mkRecord 0 10 wDrawQ).queue_size = 0 ↔
        (mkRecord 0 10 wDrawQ).potential_fuel_savings = 0)) ∧
    (0 ≤ (mkRecord 0 10 wDrawQ).demurrage_cost ∧
      0 ≤ (mkRecord 0 10 wDrawQ).total_fuel_cost ∧
      0 ≤ (mkRecord 0 10 wDrawQ).potential_fuel_savings) :=
  C5_invariants [wDrawQ] 90
    (by
      intro d hd
      rw [List.mem_singleton] at hd
      subst hd
      norm_num [RawDraws.valid, wDrawQ])
    (mkRecord 0 10 wDrawQ)
    (by simp [generateData, wDrawQ, List.insertionSort, List.range_succ])

/-- Claim C9: for every non-empty batch the efficiency score equals
`100 * (1 - waited / total)`, and a batch of 10 records of which 3 waited
scores exactly 70. -/
theorem C9_efficiency_score (df : List VoyageRecord) (h : 0 < df.length) :
    efficiencyScore df =
      100 * (1 - (shipsWaited df : ℚ) / (df.length : ℚ)) ∧
    (df.length = 10 → shipsWaited df = 3 → efficiencyScore df = 70) := by
  have h1 : efficiencyScore df =
      100 * (1 - (shipsWaited df : ℚ) / (df.length : ℚ)) := by
    unfold efficiencyScore
    ring
  refine ⟨h1, fun hl hw => ?_⟩
  rw [h1, hl, hw]
  norm_num

/-- A record whose voyage waited (positive waiting days). -/
def wRecWait : VoyageRecord :=
  ⟨"TANKER-001", 0, 1, 2, 14, 600, 10.5, 60000, 360000, 108000⟩

/-- A record whose voyage did not wait. -/
def wRecClear : VoyageRecord :=
  ⟨"TANKER-002", 0, 0, 0, 14, 500, 14, 0, 300000, 0⟩

/-- A batch of 10 records of which exactly 3 waited. -/
def wBatchTen : List VoyageRecord :=
  [wRecWait, wRecWait, wRecWait, wRecClear, wRecClear, wRecClear, wRecClear,
    wRecClear, wRecClear, wRecClear]

/-- Witness for C9: the concrete 10-record batch with 3 waiting voyages
scores exactly 70. -/
theorem C9_efficiency_score_witness : efficiencyScore wBatchTen = 70 :=
  (C9_efficiency_score wBatchTen (by norm_num [wBatchTen])).2
    (by norm_num [wBatchTen])
    (by norm_num [shipsWaited, wBatchTen, wRecWait, wRecClear, List.filter])

end PortSync
